import Mathlib

/-!
Shallow embedding of the `ycla_ai_chat` repository (FastAPI + Celery RAG
backend) and verification of the frozen claims about it.

External effects (database sessions, the Azure search index, the OpenAI
clients, Redis, HTTP webhooks) are modelled by explicit outcome parameters:
an operation that may raise an exception is an `Except String α` value fed
into the embedded function, which mirrors the Python control flow
(`try`/`except`/`finally`) by pattern matching on those outcomes.
-/

namespace YclaAi

/-! ## Task results (src/app/tasks.py)

Every Celery task builds a `result` dict with keys `success`, `company_id`,
`errors` and `details`; the shape of `details` differs per task. -/

structure TaskResult (D : Type) where
  success : Bool
  company_id : String
  errors : List String
  details : D
deriving DecidableEq, Repr

structure UploadDetails where
  documents_uploaded : Bool
deriving DecidableEq, Repr

structure DeleteDetails where
  documents_deleted : Bool
deriving DecidableEq, Repr

structure TeardownDetails where
  documents_deleted : Bool
  prompts_deleted : Bool
  company_deleted : Bool
deriving DecidableEq, Repr

/-- The `finally:` block shared by all three tasks:
`if url: try: send_webhook(url, result) except Exception as e:
result["errors"].append(f"Webhook: {e}")`.
`hook = none` models a falsy `url` (no webhook attempted); `hook = some o`
models a provided URL whose delivery outcome is `o`.  Returns the final
result together with the payload passed to `send_webhook` (`none` when the
notifier was not invoked). -/
def webhookFinally {D : Type} (hook : Option (Except String Unit))
    (r : TaskResult D) : TaskResult D × Option (TaskResult D) :=
  match hook with
  | none => (r, none)
  | some (Except.ok _) => (r, some r)
  | some (Except.error e) =>
      ({ r with errors := r.errors ++ ["Webhook: " ++ e] }, some r)

/-- Python exception classes distinguished by the upload task's
`except SQLAlchemyError` / `except Exception` clauses. -/
inductive PyErr where
  | sqlalchemy (msg : String)
  | other (msg : String)
deriving DecidableEq, Repr

/-- `upload_documents_task(documents, company_id, url)` from
src/app/tasks.py, parametrised over the outcome `step` of its call to
`database.upload_documents` (in the actual code that call never raises, see
`upload_documents` below, so `step = Except.ok ()` on every real run). -/
def upload_documents_task (step : Except PyErr Unit) (cid : String)
    (hook : Option (Except String Unit)) :
    TaskResult UploadDetails × Option (TaskResult UploadDetails) :=
  let r0 : TaskResult UploadDetails :=
    { success := false, company_id := cid, errors := [],
      details := { documents_uploaded := false } }
  let r :=
    match step with
    | Except.ok _ =>
        { r0 with success := true,
                  details := { documents_uploaded := true } }
    | Except.error (PyErr.sqlalchemy e) =>
        { r0 with errors := r0.errors ++ ["Database operation: " ++ e] }
    | Except.error (PyErr.other e) =>
        { r0 with errors := r0.errors ++ ["Critical: " ++ e] }
  webhookFinally hook r

/-- `delete_documents_task(company_id, url)` from src/app/tasks.py,
parametrised over the outcome `step` of its call to
`database.delete_documents` (only `SQLAlchemyError` is caught there; the
actual callee never raises, so `step = Except.ok ()` on every real run). -/
def delete_documents_task (step : Except String Unit) (cid : String)
    (hook : Option (Except String Unit)) :
    TaskResult DeleteDetails × Option (TaskResult DeleteDetails) :=
  let r0 : TaskResult DeleteDetails :=
    { success := false, company_id := cid, errors := [],
      details := { documents_deleted := false } }
  let r :=
    match step with
    | Except.ok _ =>
        { r0 with success := true,
                  details := { documents_deleted := true } }
    | Except.error e =>
        { r0 with errors := r0.errors ++ ["Critical: " ++ e] }
  webhookFinally hook r

/-- The outcomes of the external operations performed by
`delete_company_task` (src/app/tasks.py): the `delete_documents` call, the
bulk `delete(AdminPrompt)` statement (yielding a rowcount), the
`session.get(Company, company_id)` lookup (did a row exist?), the
`session.delete(company); session.commit()` pair, and the webhook. -/
structure TeardownEnv where
  docsStep : Except String Unit
  promptsDelete : Except String Nat
  companyGet : Except String Bool
  companyDelete : Except String Unit
  hook : Option (Except String Unit)

/-- `delete_company_task(company_id, url)` from src/app/tasks.py.
The documents step has its own `try/except Exception` recording
`Documents deletion: …`.  The prompts/company block shares one
`try/except SQLAlchemyError` which appends `Database operation: …` and
re-raises into the outer `except Exception`, which appends `Critical: …`.
`success` is set `true` only in the branch where the company row was found
and deleted; `prompts_deleted` is the bulk delete's `rowcount > 0`. -/
def delete_company_task (env : TeardownEnv) (cid : String) :
    TaskResult TeardownDetails × Option (TaskResult TeardownDetails) :=
  let r0 : TaskResult TeardownDetails :=
    { success := false, company_id := cid, errors := [],
      details := { documents_deleted := false, prompts_deleted := false,
                   company_deleted := false } }
  let r1 :=
    match env.docsStep with
    | Except.ok _ =>
        { r0 with details := { r0.details with documents_deleted := true } }
    | Except.error e =>
        { r0 with errors := r0.errors ++ ["Documents deletion: " ++ e] }
  let r2 :=
    match env.promptsDelete with
    | Except.error e =>
        { r1 with errors :=
            r1.errors ++ ["Database operation: " ++ e, "Critical: " ++ e] }
    | Except.ok n =>
        let rp :=
          { r1 with details :=
              { r1.details with prompts_deleted := decide (n > 0) } }
        match env.companyGet with
        | Except.error e =>
            { rp with errors :=
                rp.errors ++ ["Database operation: " ++ e, "Critical: " ++ e] }
        | Except.ok true =>
            match env.companyDelete with
            | Except.ok _ =>
                { rp with success := true,
                          details :=
                            { rp.details with company_deleted := true } }
            | Except.error e =>
                { rp with errors :=
                    rp.errors ++
                      ["Database operation: " ++ e, "Critical: " ++ e] }
        | Except.ok false =>
            { rp with errors := rp.errors ++ ["Company not found"] }
  webhookFinally env.hook r2

end YclaAi

namespace YclaAi

/-! ## `delete_documents` (src/app/database.py)

The function searches the index for the tenant's chunks, deletes them,
conditionally cleans the `FileMetadata` rows, and wraps everything in a
catch-all `except Exception` that returns `{"deleted": False}`; its Lean
type is therefore total — it never raises. -/

structure DeleteResult where
  deleted : Bool
deriving DecidableEq, Repr

/-- Outcomes of the external operations inside `delete_documents`: the
index search (list of chunk ids), the index `delete_documents` call
(yielding `results[0].succeeded`), and the relational cleanup. -/
structure DeleteDocsEnv where
  search : Except String (List String)
  deleteOp : Except String Bool
  dbCleanup : Except String Unit

/-- `delete_documents(company_id)` from src/app/database.py.  Any raised
exception is caught and turned into `{"deleted": False}`; when the index
delete reports `succeeded = False` the metadata cleanup is skipped but the
function still returns `{"deleted": True}` (the `if` has no `else`). -/
def delete_documents (env : DeleteDocsEnv) : DeleteResult :=
  match env.search with
  | Except.error _ => { deleted := false }
  | Except.ok _chunks =>
      match env.deleteOp with
      | Except.error _ => { deleted := false }
      | Except.ok succeeded =>
          if succeeded then
            match env.dbCleanup with
            | Except.error _ => { deleted := false }
            | Except.ok _ => { deleted := true }
          else { deleted := true }

end YclaAi

namespace YclaAi

/-! ## Ingest pipeline (src/app/utils.py `chunk_text`, `create_batch`;
src/app/database.py `upload_documents`) -/

/-- `chunk_text(text, size)` from src/app/utils.py:
`[text[i : i + size] for i in range(0, len(text), size)]`.
The source raises `ValueError` on `size <= 0`; all callers pass the
positive configured embedding size, and the `size = 0` case is never used
below. -/
def chunk_text (text : String) (size : Nat) : List String :=
  if size = 0 then []
  else (List.range ((text.length + size - 1) / size)).map
    (fun i => String.mk ((text.toList.drop (i * size)).take size))

/-- `create_batch(company_id, file_content, file_name, document_id)` from
src/app/utils.py, parametrised over the text-extraction outcome and the
per-chunk embedding outcomes (`emb`).  Extraction failure or empty text
raises (`Except.error`, a 400 `HTTPException` in the source); a chunk whose
embedding call raises is logged and skipped — only the successful chunks
land in the returned batch. -/
def create_batch (extraction : Except String String) (size : Nat)
    (emb : String → Except String (List Int)) :
    Except String (List (String × List Int)) :=
  match extraction with
  | Except.error e => Except.error ("Batch creation failed: " ++ e)
  | Except.ok text =>
      if text = "" then
        Except.error "Batch creation failed: No text extracted from file"
      else
        Except.ok ((chunk_text text size).filterMap
          (fun c =>
            match emb c with
            | Except.ok v => some (c, v)
            | Except.error _ => none))

/-- One file of an ingest batch as seen by `upload_documents`
(src/app/database.py): its name and the outcome of the per-file loop body
(the `create_batch` call, the index upload and the metadata insert — on
every real run this is an `error`, because the source invokes
`create_batch(company_id=…, file_path=…, document_id=…)` while
`create_batch` has no `file_path` parameter, a `TypeError`). -/
structure IngestFile where
  name : String
  body : Except String Unit
deriving Repr

/-- The `for file_path in documents:` loop of `upload_documents`.  Returns
the `indexed` flag and the names whose chunks and metadata were committed
before the loop ended.  The whole loop sits inside one
`try/except Exception`, so the first file whose body raises aborts the
remaining files and yields `{"indexed": False}`. -/
def upload_documents_loop : List IngestFile → Bool × List String
  | [] => (true, [])
  | f :: rest =>
      match f.body with
      | Except.ok _ =>
          let r := upload_documents_loop rest
          (r.fst, f.name :: r.snd)
      | Except.error _ => (false, [])

/-- `upload_documents(documents, company_id)` from src/app/database.py.
Total (never raises): the catch-all converts any per-file failure into the
returned `{"indexed": False}` — which the calling task ignores. -/
def upload_documents (files : List IngestFile) : Bool × List String :=
  upload_documents_loop files

/-! ## Conversation history (src/app/utils.py `set_redis_history`) -/

/-- `set_redis_history(redis_client, key, *values)` from src/app/utils.py,
acting on the stored list for one `(tenant, session)` key: early-return
when no values are given, else `RPUSH key *values` followed by
`LTRIM key -10 -1` (keep only the last 10 entries). -/
def set_redis_history (hist : List String) (values : List String) :
    List String :=
  if values = [] then hist
  else
    let pushed := hist ++ values
    pushed.drop (pushed.length - 10)

/-! ## Admin prompts (src/app/database.py `save_admin_prompt`) -/

/-- `save_admin_prompt(admin_prompt, company, session)` from
src/app/database.py, acting on the tenant's list of `AdminPrompt` rows
(oldest first; `.first()` picks the head).  Returns the sequence of states
visible to other readers after each `session.commit()`: first the state
after the old prompt (if any) was deleted and committed, then the state
after the replacement was inserted and committed. -/
def save_admin_prompt (prompts : List String) (p : String) :
    List (List String) :=
  match prompts with
  | [] => [[p]]
  | _old :: rest => [rest, rest ++ [p]]

end YclaAi

namespace YclaAi

/-! ## Upload endpoint validation (src/app/endpoints.py `upload`,
src/app/config.py `App_settings`) -/

/-- `App_settings.supported_extensions = {".pdf", ".docx"}`
(src/app/config.py). -/
def supported_extensions : List String := [".pdf", ".docx"]

/-- `App_settings.max_file_size = 1024 * 1024 * 100` (src/app/config.py). -/
def max_file_size : Nat := 1024 * 1024 * 100

/-- Index of the last occurrence of a character in a character list. -/
def lastIdxOf (c : Char) (cs : List Char) : Option Nat :=
  ((List.range cs.length).filter (fun i => cs.getD i ' ' = c)).getLast?

/-- `pathlib.Path(name).suffix`: the extension of the final path
component, i.e. `name[i:]` for the last dot index `i` when
`0 < i < len(name) - 1`, else the empty string. -/
def path_suffix (name : String) : String :=
  let cs0 := name.toList
  let base :=
    match lastIdxOf '/' cs0 with
    | some i => cs0.drop (i + 1)
    | none => cs0
  match lastIdxOf '.' base with
  | some i => if 0 < i ∧ i < base.length - 1 then String.mk (base.drop i) else ""
  | none => ""

/-- `str.lower()`, character by character. -/
def lowerStr (s : String) : String := String.mk (s.toList.map Char.toLower)

/-- One uploaded file as the `upload` endpoint sees it: its `filename`,
its `size`, and the outcome of `file.file.read()`. -/
structure UploadFileIn where
  filename : String
  size : Nat
  readStep : Except String Unit
deriving Repr

/-- Exceptions distinguished by the `upload` endpoint around
`upload_documents_task.delay`: `ValidationError`, `KeyError`, other. -/
inductive DelayErr where
  | validation (msg : String)
  | keyError (msg : String)
  | other (msg : String)
deriving Repr

/-- The `for file in files:` validation/read loop of the `upload` endpoint
(src/app/endpoints.py): per file, in order — extension allow-list check
(400 `Unsupported file type`), size-ceiling check (400
`File exceeds size limit`), then the read into memory (500 on failure). -/
def upload_files_loop : List UploadFileIn → Except (Nat × String) Unit
  | [] => Except.ok ()
  | f :: rest =>
      if lowerStr (path_suffix f.filename) ∈ supported_extensions then
        if f.size > max_file_size then
          Except.error (400, "File exceeds size limit")
        else
          match f.readStep with
          | Except.ok _ => upload_files_loop rest
          | Except.error _ =>
              Except.error (500, "Failed to read file: " ++ f.filename)
      else Except.error (400, "Unsupported file type")

/-- The `upload` endpoint (src/app/endpoints.py): validate and read every
file, and only then enqueue `upload_documents_task.delay`.  The returned
`Bool` records whether the enqueue call was reached; `delayStep` is its
outcome (the task id, or one of the exceptions the endpoint catches). -/
def upload_endpoint (files : List UploadFileIn)
    (delayStep : Except DelayErr String) :
    Except (Nat × String) String × Bool :=
  match upload_files_loop files with
  | Except.error e => (Except.error e, false)
  | Except.ok _ =>
      match delayStep with
      | Except.ok tid => (Except.ok tid, true)
      | Except.error (DelayErr.validation _) =>
          (Except.error (400, "Invalid request body"), true)
      | Except.error (DelayErr.keyError m) =>
          (Except.error (400, "Missing required field: " ++ m), true)
      | Except.error (DelayErr.other m) =>
          (Except.error (500, "Failed to start upload task: " ++ m), true)

end YclaAi

namespace YclaAi

/-! ## Chat turn orchestrator (src/app/endpoints.py `chat`) -/

structure Msg where
  role : String
  content : String
deriving DecidableEq, Repr

/-- The provider exception classes named by the `chat` endpoint's first
`except` clause (`APIError`, `RateLimitError`, `InternalServerError`,
`LengthFinishReasonError`, `ContentFilterFinishReasonError`) versus every
other exception. -/
inductive ProviderErr where
  | classified (msg : String)
  | other (msg : String)
deriving Repr

/-- Outcomes of the external calls made during one chat turn:
`get_redis_history`, the retrieval block (`get_embedding` +
`search_client.search` + join, yielding the context string),
`get_admin_prompt`, the primary (Azure) completion, the secondary
(Deepseek) completion, and `set_redis_history`. -/
structure ChatEnv where
  historyLoad : Except String (List Msg)
  retrieval : Except String String
  adminPrompt : Except String String
  azure : List Msg → Except ProviderErr String
  deepseek : List Msg → Except String String
  persist : Except String Unit

/-- How a chat turn fails: an `HTTPException(503, detail)` raised by the
provider-fallback block, or an exception that no `except` clause covers
(surfacing as a 500 from the framework). -/
inductive ChatFailure where
  | http503 (detail : String)
  | uncaught (msg : String)
deriving Repr

/-- A completed chat turn: the answer returned, the message list sent to
the provider(s), whether the Deepseek fallback produced the answer, and
whether the history write succeeded (its failure is logged and
swallowed). -/
structure ChatOk where
  answer : String
  sentMessages : List Msg
  usedFallback : Bool
  historySaved : Bool
deriving Repr

/-- `try: messages = await get_redis_history(...) except Exception:
messages = []` — a history-load failure degrades to an empty history. -/
def chatHistory (env : ChatEnv) : List Msg :=
  match env.historyLoad with
  | Except.ok h => h
  | Except.error _ => []

/-- The retrieval block of `chat` — embedding, index search and content
join sit in one `try`; any failure degrades to the empty context. -/
def chatContext (env : ChatEnv) : String :=
  match env.retrieval with
  | Except.ok c => c
  | Except.error _ => ""

/-- The system message built from the fixed instruction plus the tenant's
admin prompt. -/
def systemMsg (admin : String) : Msg :=
  { role := "system",
    content := "Используй только предоставленный контекст для ответа. "
      ++ admin }

/-- The new user turn with the retrieved context inlined. -/
def userMsg (context question : String) : Msg :=
  { role := "user",
    content := "Контекст:\n" ++ context ++ "\n\nВопрос:\n" ++ question }

/-- `final_messages = system_prompt + messages` after
`messages.append(user-turn)`. -/
def finalMessages (env : ChatEnv) (admin question : String) : List Msg :=
  systemMsg admin :: (chatHistory env ++ [userMsg (chatContext env) question])

/-- The `chat` endpoint (src/app/endpoints.py), one turn.  History load and
retrieval degrade on failure; `get_admin_prompt` is called outside any
`try` block, so its failure escapes the handler; the primary provider is
tried once, a classified error triggers exactly one retry of the same
message list against Deepseek, whose failure (or any unclassified primary
error) raises a 503; the history write's outcome never affects the
response. -/
def chat (env : ChatEnv) (question : String) : Except ChatFailure ChatOk :=
  match env.adminPrompt with
  | Except.error e => Except.error (ChatFailure.uncaught e)
  | Except.ok admin =>
      let final := finalMessages env admin question
      match env.azure final with
      | Except.ok ans =>
          Except.ok { answer := ans, sentMessages := final,
                      usedFallback := false,
                      historySaved := env.persist.isOk }
      | Except.error (ProviderErr.classified _) =>
          match env.deepseek final with
          | Except.ok ans =>
              Except.ok { answer := ans, sentMessages := final,
                          usedFallback := true,
                          historySaved := env.persist.isOk }
          | Except.error _ =>
              Except.error (ChatFailure.http503
                "Failed to retrieve response from Azure OpenAI or Deepseek API. Try later.")
      | Except.error (ProviderErr.other _) =>
          Except.error (ChatFailure.http503
            "Unexpected error. Failed to retrieve response from Azure OpenAI or Deepseek API")

end YclaAi

namespace YclaAi

/-! ## Theorems -/

/-- A teardown run in which every step succeeds but the tenant owns no
`AdminPrompt` rows: the bulk delete reports `rowcount = 0`. -/
def teardownNoPromptsEnv : TeardownEnv :=
  { docsStep := Except.ok (), promptsDelete := Except.ok 0,
    companyGet := Except.ok true, companyDelete := Except.ok (),
    hook := none }

/-- C1 (counterexample): the claim says the teardown result's `success` is
true only if all three `details` flags are true.  On a run where the tenant
exists but owns no admin prompt, `prompts_deleted` is `false`
(`rowcount > 0` fails) yet `success` is `true`. -/
theorem teardown_success_without_all_flags :
    (delete_company_task teardownNoPromptsEnv "c1").fst.success = true
    ∧ (delete_company_task teardownNoPromptsEnv "c1").fst.details.prompts_deleted
        = false :=
  ⟨rfl, rfl⟩

/-- C1 (amended): in `delete_company_task`, `success` is true exactly when
the prompts-delete statement did not raise, the company row was found, and
its deletion committed — independently of the `documents_deleted` and
`prompts_deleted` flags; `documents_deleted` records exactly whether the
documents step raised, `prompts_deleted` records exactly whether the bulk
delete removed at least one row, and `company_deleted` always equals
`success`. -/
theorem teardown_flags_and_success_spec :
    ∀ (env : TeardownEnv) (cid : String),
      ((delete_company_task env cid).fst.success = true ↔
        (∃ n, env.promptsDelete = Except.ok n)
          ∧ env.companyGet = Except.ok true
          ∧ env.companyDelete = Except.ok ())
      ∧ ((delete_company_task env cid).fst.details.documents_deleted = true ↔
          env.docsStep = Except.ok ())
      ∧ ((delete_company_task env cid).fst.details.prompts_deleted = true ↔
          ∃ n, env.promptsDelete = Except.ok n ∧ 0 < n)
      ∧ (delete_company_task env cid).fst.details.company_deleted
          = (delete_company_task env cid).fst.success := by
  intro env cid
  obtain ⟨ds, pd, cg, cd, hk⟩ := env
  rcases ds with e1 | _ <;> rcases pd with e2 | n <;>
    rcases cg with e3 | b <;> rcases cd with e4 | _ <;>
    rcases hk with _ | o
  all_goals try rcases b
  all_goals try rcases o with e5 | _
  all_goals simp [delete_company_task, webhookFinally]

/-- C7: when the tenant record is already absent (`session.get` returns
`None` while the prompts delete ran without raising), the teardown task
does not crash: `company_deleted = false`, `success = false`,
`"Company not found"` is recorded in `errors`, and the
`documents_deleted` / `prompts_deleted` flags still reflect their own
independent step outcomes. -/
theorem teardown_company_absent_spec :
    ∀ (env : TeardownEnv) (cid : String) (n : Nat),
      env.promptsDelete = Except.ok n →
      env.companyGet = Except.ok false →
      (delete_company_task env cid).fst.details.company_deleted = false
      ∧ (delete_company_task env cid).fst.success = false
      ∧ "Company not found" ∈ (delete_company_task env cid).fst.errors
      ∧ (delete_company_task env cid).fst.details.documents_deleted
          = env.docsStep.isOk
      ∧ (delete_company_task env cid).fst.details.prompts_deleted
          = decide (0 < n) := by
  intro env cid n hp hg
  obtain ⟨ds, pd, cg, cd, hk⟩ := env
  simp only at hp hg
  subst hp hg
  rcases ds with e1 | _ <;> rcases hk with _ | o
  all_goals try rcases o with e5 | _
  all_goals simp [delete_company_task, webhookFinally, Except.isOk,
    Except.toBool]

/-- C7 witness: a concrete run — documents step succeeded, one prompt row
was deleted, the company row was absent. -/
theorem teardown_company_absent_spec_witness :
    ({ docsStep := Except.ok (), promptsDelete := Except.ok 1,
       companyGet := Except.ok false, companyDelete := Except.ok (),
       hook := some (Except.ok ()) } : TeardownEnv).promptsDelete
        = Except.ok 1
    ∧ (delete_company_task
        { docsStep := Except.ok (), promptsDelete := Except.ok 1,
          companyGet := Except.ok false, companyDelete := Except.ok (),
          hook := some (Except.ok ()) } "c7").fst.success = false
    ∧ (delete_company_task
        { docsStep := Except.ok (), promptsDelete := Except.ok 1,
          companyGet := Except.ok false, companyDelete := Except.ok (),
          hook := some (Except.ok ()) } "c7").fst.details.prompts_deleted
        = decide (0 < 1) := by
  refine ⟨rfl, ?_, ?_⟩
  · exact (teardown_company_absent_spec _ "c7" 1 rfl rfl).2.1
  · exact (teardown_company_absent_spec _ "c7" 1 rfl rfl).2.2.2.2

/-- C8: `delete_documents` (src/app/database.py) catches every exception
and returns a `deleted` flag — when the index search, the index deletion
or the relational cleanup fails it returns `{"deleted": False}` instead of
raising — and `delete_documents_task` ignores that flag: with the step
outcome `Except.ok ()` that the never-raising callee always produces, the
task result has `success = true` and `documents_deleted = true` on every
run. -/
theorem delete_docs_task_always_success :
    ∀ (cid : String) (hook : Option (Except String Unit))
      (env : DeleteDocsEnv) (e : String),
      (delete_documents_task (Except.ok ()) cid hook).fst.success = true
      ∧ (delete_documents_task (Except.ok ())
          cid hook).fst.details.documents_deleted = true
      ∧ delete_documents { env with search := Except.error e }
          = { deleted := false }
      ∧ delete_documents { env with
            search := Except.ok []
            deleteOp := Except.error e } = { deleted := false }
      ∧ delete_documents { env with
            search := Except.ok []
            deleteOp := Except.ok true
            dbCleanup := Except.error e } = { deleted := false }
      ∧ delete_documents { env with
            search := Except.ok []
            deleteOp := Except.ok false } = { deleted := true } := by
  intro cid hook env e
  refine ⟨?_, ?_, rfl, rfl, rfl, rfl⟩ <;>
    · rcases hook with _ | o
      · rfl
      · rcases o with e5 | _ <;> rfl

/-- A teardown invocation with the default `url=None`
(`delete_company_task(company_id)`): every step succeeds, no webhook URL
is supplied. -/
def teardownNoUrlEnv : TeardownEnv :=
  { docsStep := Except.ok (), promptsDelete := Except.ok 1,
    companyGet := Except.ok true, companyDelete := Except.ok (),
    hook := none }

/-- C4 (counterexample): the claim says every background job invokes the
webhook notifier on every exit path, but the `finally:` blocks guard the
call with `if url:` — a teardown run with the default `url=None` (and
likewise any task run with a falsy `url`) never invokes the notifier. -/
theorem teardown_without_url_skips_notifier :
    (delete_company_task teardownNoUrlEnv "c4").snd = none := rfl

/-- The behaviour of the shared `finally:` webhook block when a URL is
supplied: the notifier receives exactly the accumulated result, and a
delivery failure is caught, leaves `success`, `company_id` and `details`
unchanged, and only appends the `Webhook: …` entry to `errors`. -/
theorem webhookFinally_spec {D : Type} (o : Except String Unit)
    (r : TaskResult D) :
    (webhookFinally (some o) r).snd = some r
    ∧ (webhookFinally (some o) r).fst.success = r.success
    ∧ (webhookFinally (some o) r).fst.details = r.details
    ∧ (webhookFinally (some o) r).fst.errors
        = r.errors ++
          (match o with
           | Except.ok _ => []
           | Except.error e => ["Webhook: " ++ e]) := by
  rcases o with e | u <;> simp [webhookFinally]

/-- C4 (amended): whenever a webhook URL is supplied, each of the three
tasks — ingest, delete-all, teardown — invokes the notifier with the
accumulated result on every exit path (all step outcomes quantified), a
delivery failure is caught and never re-raised, the already-computed
`success` and `details` fields are unchanged by it, and only a
`Webhook: …` entry is appended to `errors` on delivery failure. -/
theorem tasks_notify_and_webhook_frame :
    ∀ (su : Except PyErr Unit) (sd : Except String Unit)
      (env : TeardownEnv) (cid : String) (o : Except String Unit),
      ((upload_documents_task su cid (some o)).snd
          = some (upload_documents_task su cid none).fst
        ∧ (upload_documents_task su cid (some o)).fst.success
            = (upload_documents_task su cid none).fst.success
        ∧ (upload_documents_task su cid (some o)).fst.details
            = (upload_documents_task su cid none).fst.details
        ∧ (upload_documents_task su cid (some o)).fst.errors
            = (upload_documents_task su cid none).fst.errors ++
              (match o with
               | Except.ok _ => []
               | Except.error e => ["Webhook: " ++ e]))
      ∧ ((delete_documents_task sd cid (some o)).snd
          = some (delete_documents_task sd cid none).fst
        ∧ (delete_documents_task sd cid (some o)).fst.success
            = (delete_documents_task sd cid none).fst.success
        ∧ (delete_documents_task sd cid (some o)).fst.details
            = (delete_documents_task sd cid none).fst.details
        ∧ (delete_documents_task sd cid (some o)).fst.errors
            = (delete_documents_task sd cid none).fst.errors ++
              (match o with
               | Except.ok _ => []
               | Except.error e => ["Webhook: " ++ e]))
      ∧ ((delete_company_task { env with hook := some o } cid).snd
          = some (delete_company_task { env with hook := none } cid).fst
        ∧ (delete_company_task { env with hook := some o } cid).fst.success
            = (delete_company_task { env with hook := none } cid).fst.success
        ∧ (delete_company_task { env with hook := some o } cid).fst.details
            = (delete_company_task { env with hook := none } cid).fst.details
        ∧ (delete_company_task { env with hook := some o } cid).fst.errors
            = (delete_company_task { env with hook := none } cid).fst.errors ++
              (match o with
               | Except.ok _ => []
               | Except.error e => ["Webhook: " ++ e])) := by
  intro su sd env cid o
  refine ⟨?_, ?_, ?_⟩
  · exact webhookFinally_spec o _
  · exact webhookFinally_spec o _
  · exact webhookFinally_spec o _

/-- The ingest batch `[corrupt file, valid file]`: the first file's loop
body raises (in the source every body raises a `TypeError` because
`upload_documents` calls `create_batch(company_id=…, file_path=…,
document_id=…)` against the signature `create_batch(company_id,
file_content, file_name, document_id)`; with that slip repaired, a corrupt
file's extraction failure raises just the same), the second file's body
would succeed. -/
def ingestFailBatch : List IngestFile :=
  [{ name := "bad.pdf", body := Except.error "PDF extraction failed" },
   { name := "good.pdf", body := Except.ok () }]

/-- An embedding stub for a two-chunk document whose first chunk's
embedding call raises. -/
def embFirstChunkFails (c : String) : Except String (List Int) :=
  if c = "ab" then Except.error "embedding failed" else Except.ok [1]

/-- C2 (evaluation at the failing input): per-chunk embedding failure does
drop only that chunk (`create_batch` keeps the surviving chunk), but a
failing file aborts the whole `upload_documents` loop — the valid file is
never indexed, `{"indexed": False}` is returned — and
`upload_documents_task`, which ignores that return value and sees no
exception, still reports `success = true`, `documents_uploaded = true`
and an empty `errors` list. -/
theorem ingest_corrupt_file_aborts_batch_yet_task_succeeds :
    create_batch (Except.ok "abcd") 2 embFirstChunkFails
        = Except.ok [("cd", [1])]
    ∧ upload_documents ingestFailBatch = (false, [])
    ∧ (upload_documents_task (Except.ok ()) "c2" none).fst
        = { success := true, company_id := "c2", errors := [],
            details := { documents_uploaded := true } } :=
  ⟨rfl, rfl, rfl⟩

/-- C5: `set_redis_history` keeps the per-key history bounded: starting
from any stored list of at most 10 entries, after a write the list still
holds at most 10 entries, it is a suffix of the old list followed by the
newly pushed values (so only the oldest entries, at the head, are ever
discarded), and a non-empty write leaves exactly
`min (old + pushed) 10` entries. -/
theorem set_redis_history_bounded_fifo :
    ∀ (hist values : List String), hist.length ≤ 10 →
      (set_redis_history hist values).length ≤ 10
      ∧ (set_redis_history hist values) <:+ (hist ++ values)
      ∧ (values ≠ [] →
          (set_redis_history hist values).length
            = min (hist.length + values.length) 10) := by
  intro hist values h
  by_cases hv : values = []
  · subst hv
    simp [set_redis_history, h]
  · refine ⟨?_, ?_, ?_⟩
    · simp [set_redis_history, hv, List.length_drop]
      omega
    · simp [set_redis_history, hv]
      exact List.drop_suffix _ _
    · intro _
      simp [set_redis_history, hv, List.length_drop]
      omega

/-- C5 witness: a full 10-entry history plus a two-entry write. -/
theorem set_redis_history_bounded_fifo_witness :
    (["1", "2", "3", "4", "5", "6", "7", "8", "9", "10"] : List String).length
        ≤ 10
    ∧ ((set_redis_history
          ["1", "2", "3", "4", "5", "6", "7", "8", "9", "10"]
          ["11", "12"]).length ≤ 10
      ∧ (set_redis_history
          ["1", "2", "3", "4", "5", "6", "7", "8", "9", "10"]
          ["11", "12"]) <:+
          (["1", "2", "3", "4", "5", "6", "7", "8", "9", "10"] ++
            ["11", "12"])
      ∧ ((["11", "12"] : List String) ≠ [] →
          (set_redis_history
            ["1", "2", "3", "4", "5", "6", "7", "8", "9", "10"]
            ["11", "12"]).length
            = min
                ((["1", "2", "3", "4", "5", "6", "7", "8", "9", "10"]
                    : List String).length + (["11", "12"] : List String).length)
                10)) :=
  ⟨by decide,
   set_redis_history_bounded_fifo
     ["1", "2", "3", "4", "5", "6", "7", "8", "9", "10"] ["11", "12"]
     (by decide)⟩

/-- C10: `save_admin_prompt` is an upsert-replace on the tenant's
`AdminPrompt` rows: assuming the invariant that at most one prompt is
active before the save, the final committed state is exactly the one new
prompt, and every state committed during the save (the post-delete state
and the post-insert state) holds at most one prompt — no reader can
observe two active prompts for the tenant. -/
theorem save_admin_prompt_at_most_one :
    ∀ (prompts : List String) (p : String), prompts.length ≤ 1 →
      (save_admin_prompt prompts p).getLast? = some [p]
      ∧ ∀ s ∈ save_admin_prompt prompts p, s.length ≤ 1 := by
  intro prompts p h
  match prompts with
  | [] => simp [save_admin_prompt]
  | [a] =>
      refine ⟨rfl, ?_⟩
      intro s hs
      simp [save_admin_prompt] at hs
      rcases hs with rfl | rfl <;> simp
  | a :: b :: tl => simp at h

/-- C10 witness: replacing the single existing prompt. -/
theorem save_admin_prompt_at_most_one_witness :
    (["old"] : List String).length ≤ 1
    ∧ ((save_admin_prompt ["old"] "new").getLast? = some ["new"]
      ∧ ∀ s ∈ save_admin_prompt ["old"] "new", s.length ≤ 1) :=
  ⟨by decide, save_admin_prompt_at_most_one ["old"] "new" (by decide)⟩

/-- Helper for C9: if some file in the batch violates the extension
allow-list or the size ceiling, the validation/read loop ends in an error
— and in a `400` one whenever no file read fails. -/
theorem upload_files_loop_error_of_violation :
    ∀ (files : List UploadFileIn) (f : UploadFileIn), f ∈ files →
      (lowerStr (path_suffix f.filename) ∉ supported_extensions
        ∨ max_file_size < f.size) →
      ∃ c d, upload_files_loop files = Except.error (c, d)
        ∧ ((∀ g ∈ files, g.readStep = Except.ok ()) → c = 400) := by
  intro files
  induction files with
  | nil => intro f hf; simp at hf
  | cons a rest ih =>
      intro f hf hviol
      by_cases hext : lowerStr (path_suffix a.filename) ∈ supported_extensions
      · by_cases hsize : max_file_size < a.size
        · refine ⟨400, "File exceeds size limit", ?_, fun _ => rfl⟩
          simp [upload_files_loop, hext, hsize]
        · rcases hread : a.readStep with e | u
          · refine ⟨500, "Failed to read file: " ++ a.filename, ?_, ?_⟩
            · simp [upload_files_loop, hext, hsize, hread]
            · intro hall
              have := hall a (by simp)
              rw [hread] at this
              exact absurd this (by simp)
          · have hfr : f ∈ rest := by
              rcases List.mem_cons.mp hf with rfl | hr
              · rcases hviol with hv | hv
                · exact absurd hext hv
                · exact absurd hv hsize
              · exact hr
            obtain ⟨c, d, hloop, h400⟩ := ih f hfr hviol
            refine ⟨c, d, ?_, ?_⟩
            · simp [upload_files_loop, hext, hsize, hread, hloop]
            · intro hall
              exact h400 (fun g hg => hall g (List.mem_cons_of_mem a hg))
      · refine ⟨400, "Unsupported file type", ?_, fun _ => rfl⟩
        simp [upload_files_loop, hext]

/-- C9: an ingest submission containing a file whose (lower-cased)
extension is outside the `{.pdf, .docx}` allow-list or whose size exceeds
the 100 MB ceiling never reaches `upload_documents_task.delay` — no
background task is created — and (whenever no file read fails, the only
500 on the path before the violating file) the request is rejected with a
400 client error. -/
theorem upload_rejects_invalid_files :
    ∀ (files : List UploadFileIn) (delayStep : Except DelayErr String)
      (f : UploadFileIn), f ∈ files →
      (lowerStr (path_suffix f.filename) ∉ supported_extensions
        ∨ max_file_size < f.size) →
      (upload_endpoint files delayStep).snd = false
      ∧ ∃ c d, (upload_endpoint files delayStep).fst = Except.error (c, d)
          ∧ ((∀ g ∈ files, g.readStep = Except.ok ()) → c = 400) := by
  intro files delayStep f hf hviol
  obtain ⟨c, d, hloop, h400⟩ :=
    upload_files_loop_error_of_violation files f hf hviol
  constructor
  · simp [upload_endpoint, hloop]
  · exact ⟨c, d, by simp [upload_endpoint, hloop], h400⟩

/-- C9 witness: a single `.exe` file — no task is created and the
response is a 400. -/
theorem upload_rejects_invalid_files_witness :
    ({ filename := "virus.exe", size := 10, readStep := Except.ok () }
        : UploadFileIn) ∈
      [({ filename := "virus.exe", size := 10, readStep := Except.ok () }
        : UploadFileIn)]
    ∧ lowerStr (path_suffix "virus.exe") ∉ supported_extensions
    ∧ (upload_endpoint
        [{ filename := "virus.exe", size := 10, readStep := Except.ok () }]
        (Except.ok "tid")).snd = false := by
  refine ⟨by simp, by decide, ?_⟩
  exact (upload_rejects_invalid_files
    [{ filename := "virus.exe", size := 10, readStep := Except.ok () }]
    (Except.ok "tid")
    { filename := "virus.exe", size := 10, readStep := Except.ok () }
    (by simp) (Or.inl (by decide))).1

/-- A chat environment in which both providers succeed on every message
list but the uncaught `get_admin_prompt` database read raises. -/
def chatAdminFailEnv : ChatEnv :=
  { historyLoad := Except.ok [], retrieval := Except.ok "ctx",
    adminPrompt := Except.error "db down",
    azure := fun _ => Except.ok "hello",
    deepseek := fun _ => Except.ok "hello",
    persist := Except.ok () }

/-- C3 (counterexample): the claim says the provider step is the only step
that can fail the whole turn, but `get_admin_prompt` is called outside
every `try` block — in `chatAdminFailEnv` both providers answer
unconditionally, yet the turn fails with the admin-prompt read's
exception. -/
theorem chat_admin_prompt_failure_fails_turn :
    chat chatAdminFailEnv "hi"
      = Except.error (ChatFailure.uncaught "db down") := rfl

/-- Exhaustive case analysis of one chat turn over the admin-prompt and
provider outcomes. -/
theorem chat_step_cases :
    ∀ (env : ChatEnv) (q : String),
      (∀ e, env.adminPrompt = Except.error e →
        chat env q = Except.error (ChatFailure.uncaught e))
      ∧ (∀ ap, env.adminPrompt = Except.ok ap →
          (∀ a, env.azure (finalMessages env ap q) = Except.ok a →
            chat env q = Except.ok
              { answer := a, sentMessages := finalMessages env ap q,
                usedFallback := false, historySaved := env.persist.isOk })
          ∧ (∀ m a, env.azure (finalMessages env ap q)
                = Except.error (ProviderErr.classified m) →
              env.deepseek (finalMessages env ap q) = Except.ok a →
              chat env q = Except.ok
                { answer := a, sentMessages := finalMessages env ap q,
                  usedFallback := true, historySaved := env.persist.isOk })
          ∧ (∀ m e, env.azure (finalMessages env ap q)
                = Except.error (ProviderErr.classified m) →
              env.deepseek (finalMessages env ap q) = Except.error e →
              chat env q = Except.error (ChatFailure.http503
                "Failed to retrieve response from Azure OpenAI or Deepseek API. Try later."))
          ∧ (∀ m, env.azure (finalMessages env ap q)
                = Except.error (ProviderErr.other m) →
              chat env q = Except.error (ChatFailure.http503
                "Unexpected error. Failed to retrieve response from Azure OpenAI or Deepseek API"))) := by
  intro env q
  constructor
  · intro e he
    simp [chat, he]
  · intro ap hap
    refine ⟨?_, ?_, ?_, ?_⟩
    · intro a ha
      simp [chat, hap, ha]
    · intro m a hm ha
      simp [chat, hap, hm, ha]
    · intro m e hm he
      simp [chat, hap, hm, he]
    · intro m hm
      simp [chat, hap, hm]

/-- C3 (amended): a chat turn can fail only through the provider-fallback
step or the uncaught admin-prompt database read.  When the admin-prompt
read raises, the turn fails with that exception; when it succeeds, the
four provider cases are exhaustive: primary success answers directly; a
classified primary error (`APIError` / `RateLimitError` /
`InternalServerError` / `LengthFinishReasonError` /
`ContentFilterFinishReasonError`) retries the identical message list once
against the secondary and the turn completes with the secondary's answer;
a secondary failure after a classified primary error is a 503; any other
primary exception is a 503 without a retry. -/
theorem chat_provider_fallback_spec :
    ∀ (env : ChatEnv) (q : String),
      (∀ e, env.adminPrompt = Except.error e →
        chat env q = Except.error (ChatFailure.uncaught e))
      ∧ (∀ ap, env.adminPrompt = Except.ok ap →
          (∀ a, env.azure (finalMessages env ap q) = Except.ok a →
            chat env q = Except.ok
              { answer := a, sentMessages := finalMessages env ap q,
                usedFallback := false, historySaved := env.persist.isOk })
          ∧ (∀ m a, env.azure (finalMessages env ap q)
                = Except.error (ProviderErr.classified m) →
              env.deepseek (finalMessages env ap q) = Except.ok a →
              chat env q = Except.ok
                { answer := a, sentMessages := finalMessages env ap q,
                  usedFallback := true, historySaved := env.persist.isOk })
          ∧ (∀ m e, env.azure (finalMessages env ap q)
                = Except.error (ProviderErr.classified m) →
              env.deepseek (finalMessages env ap q) = Except.error e →
              chat env q = Except.error (ChatFailure.http503
                "Failed to retrieve response from Azure OpenAI or Deepseek API. Try later."))
          ∧ (∀ m, env.azure (finalMessages env ap q)
                = Except.error (ProviderErr.other m) →
              chat env q = Except.error (ChatFailure.http503
                "Unexpected error. Failed to retrieve response from Azure OpenAI or Deepseek API"))) :=
  chat_step_cases

/-- A chat environment in which the primary provider is rate-limited and
the secondary answers. -/
def chatFallbackEnv : ChatEnv :=
  { historyLoad := Except.ok [], retrieval := Except.ok "",
    adminPrompt := Except.ok "",
    azure := fun _ => Except.error (ProviderErr.classified "rate limit"),
    deepseek := fun _ => Except.ok "fallback answer",
    persist := Except.ok () }

/-- C3 witness: with a rate-limited primary, the turn completes with the
secondary's answer over the same message list. -/
theorem chat_provider_fallback_spec_witness :
    chat chatFallbackEnv "hi" = Except.ok
      { answer := "fallback answer",
        sentMessages := finalMessages chatFallbackEnv "" "hi",
        usedFallback := true, historySaved := true } := by
  exact ((chat_provider_fallback_spec chatFallbackEnv "hi").2 "" rfl).2.1
    "rate limit" "fallback answer" rfl rfl

/-- C6: when the history load fails, the retrieval fails and the history
write fails — but the admin-prompt read and the primary provider succeed —
the turn still completes with the provider's answer: the history degraded
to empty and the context to the empty string (the provider saw exactly the
system message plus the lone user turn with empty inlined context), and
the persistence failure was swallowed after the answer was computed. -/
theorem chat_degrades_history_retrieval_persist :
    ∀ (env : ChatEnv) (q e1 e2 e3 ap a : String),
      env.historyLoad = Except.error e1 →
      env.retrieval = Except.error e2 →
      env.persist = Except.error e3 →
      env.adminPrompt = Except.ok ap →
      env.azure (finalMessages env ap q) = Except.ok a →
      finalMessages env ap q = [systemMsg ap, userMsg "" q]
      ∧ chat env q = Except.ok
          { answer := a, sentMessages := [systemMsg ap, userMsg "" q],
            usedFallback := false, historySaved := false } := by
  intro env q e1 e2 e3 ap a h1 h2 h3 hap ha
  have hfin : finalMessages env ap q = [systemMsg ap, userMsg "" q] := by
    simp [finalMessages, chatHistory, chatContext, h1, h2]
  refine ⟨hfin, ?_⟩
  have := ((chat_step_cases env q).2 ap hap).1 a ha
  rw [this, hfin, h3]
  rfl

/-- A chat environment in which the history load, the retrieval block and
the history write all fail, while the admin-prompt read and the primary
provider succeed. -/
def chatDegradedEnv : ChatEnv :=
  { historyLoad := Except.error "redis down",
    retrieval := Except.error "search down",
    adminPrompt := Except.ok "",
    azure := fun _ => Except.ok "answer",
    deepseek := fun _ => Except.ok "unused",
    persist := Except.error "redis down" }

/-- C6 witness: the fully degraded turn still completes with the primary
provider's answer. -/
theorem chat_degrades_history_retrieval_persist_witness :
    finalMessages chatDegradedEnv "" "q" = [systemMsg "", userMsg "" "q"]
    ∧ chat chatDegradedEnv "q" = Except.ok
        { answer := "answer", sentMessages := [systemMsg "", userMsg "" "q"],
          usedFallback := false, historySaved := false } :=
  chat_degrades_history_retrieval_persist chatDegradedEnv "q"
    "redis down" "search down" "redis down" "" "answer"
    rfl rfl rfl rfl rfl
